import Mathlib

/-!
Shallow embedding of `create_presentation.py` from the
tissue_manufacturing_QA_dashboard repository.

The script builds an in-memory presentation model (python-pptx) out of
string literals, saves it to a fixed file name, prints a confirmation
line and returns the file name.  We embed:

* the content model (`Paragraph`, `Slide`, `Prs`) — lengths are kept in
  inches as exact rationals (python-pptx `Inches`/`Pt` only convert
  units; font sizes are kept in points as naturals);
* one Lean function per `add_*_slide` builder, translated line by line
  from the source (a python-pptx paragraph defaults to level 0 with
  `font.bold = None` and `font.size = None`, modelled by `none`);
* the tail of `create_presentation` (save / print / return) as a small
  step program run by an explicit interpreter, so that the propagation
  of a save failure can be stated.

Python's `str.startswith` is modelled by a structural character-list
test (`pyStartsWith`), and `f"• {x}"` by string append.
-/

/-- Character-list test used to model Python `str.startswith`:
`charsStart p c` is true when `p` is an initial segment of `c`. -/
def charsStart : List Char → List Char → Bool
  | [], _ => true
  | _ :: _, [] => false
  | p :: ps, c :: cs => p == c && charsStart ps cs

/-- Models Python `s.startswith (pat)`. -/
def pyStartsWith (s pat : String) : Bool := charsStart pat.data s.data

/-- One body paragraph: text, indentation level, bold flag and font size
in points.  `none` models python-pptx attributes that the script leaves
unset (`font.bold = None`, `font.size = None`); a fresh paragraph has
level 0. -/
structure Paragraph where
  text : String
  level : Nat := 0
  bold : Option Bool := none
  size : Option Nat := none
deriving DecidableEq

/-- One slide: layout index, title placeholder (with its optional font
styling), optional subtitle placeholder, and the body text-frame
paragraphs in order. -/
structure Slide where
  layout : Nat
  title : String
  titleBold : Option Bool := none
  titleSize : Option Nat := none
  subtitle : Option String := none
  body : List Paragraph := []
deriving DecidableEq

/-- The presentation document: page size in inches (as exact rationals)
and the ordered slides. -/
structure Prs where
  slideWidth : ℚ
  slideHeight : ℚ
  slides : List Slide
deriving DecidableEq

/-- `prs.slides.add_slide(layout)` followed by populating the slide:
appends the finished slide to the document. -/
def addSlide (prs : Prs) (s : Slide) : Prs :=
  { prs with slides := prs.slides ++ [s] }

/-- A paragraph added as `p.text = t; p.level = 1` (no font settings),
as in `add_key_features_slide` and the machine-parameters loops. -/
def bullet1 (t : String) : Paragraph := { text := t, level := 1 }

/-- A paragraph added as `p.text = t; p.font.bold = True` (level left at
its default 0), used for the in-body section headers. -/
def boldHeader (t : String) : Paragraph := { text := t, bold := some true }

/-- `add_title_slide`: layout 0, title + subtitle placeholders; the
title run is set to 44pt bold. -/
def add_title_slide (prs : Prs) : Prs :=
  addSlide prs
    { layout := 0
      title := "Tissue Manufacturing QA Dashboard"
      titleBold := some true
      titleSize := some 44
      subtitle := some "Comprehensive Quality Analytics & Monitoring System\nReal-time Process Control & Performance Insights" }

/-- The `points` list of `add_overview_slide`. -/
def overview_points : List String :=
  ["Real-time quality monitoring across all production parameters",
   "Advanced analytics with daily averaging for stable insights",
   "Multi-dimensional filtering and data exploration",
   "Automated PDF report generation",
   "Process capability analysis (Cpk)",
   "Trend analysis with statistical control limits",
   "Shift performance comparison",
   "Correlation analysis between parameters"]

/-- Loop body of `add_overview_slide`: each point becomes a level-1
paragraph at 18pt. -/
def overview_render (point : String) : Paragraph :=
  { text := point, level := 1, size := some 18 }

/-- `add_overview_slide`: seed paragraph (not bolded) followed by the
rendered points. -/
def add_overview_slide (prs : Prs) : Prs :=
  addSlide prs
    { layout := 1
      title := "Dashboard Overview"
      body := { text := "Complete Quality Management Solution" }
        :: overview_points.map overview_render }

/-- Body paragraphs of `add_key_features_slide` after the seed: this
builder adds its paragraphs one by one rather than looping over a list
(bullets at level 1 with no font size; `\n`-headers bold at level 0). -/
def key_features_body : List Paragraph :=
  [bullet1 "• Excel file upload with automatic parsing",
   bullet1 "• Intelligent column mapping",
   bullet1 "• Data validation and error handling",
   boldHeader "\n2. Daily Quality Reports",
   bullet1 "• Comprehensive daily metrics view",
   bullet1 "• Automatic data aggregation",
   bullet1 "• PDF report generation",
   boldHeader "\n3. Advanced Filtering",
   bullet1 "• Date range selection",
   bullet1 "• Shift, Quality, and GSM grade filters",
   bullet1 "• Multi-criteria filtering"]

/-- `add_key_features_slide`: bolded seed paragraph followed by the
manually added paragraphs. -/
def add_key_features_slide (prs : Prs) : Prs :=
  addSlide prs
    { layout := 1
      title := "Key Features"
      body := { text := "1. Data Upload & Processing", bold := some true }
        :: key_features_body }

/-- The `metrics` list of `add_metrics_monitored_slide` (11 entries). -/
def metrics_list : List String :=
  ["GSM (Grammage) - g/m²",
   "Thickness - μm",
   "Bulk - cc/g",
   "Tensile Strength MD/CD - N/m",
   "MD/CD Ratio",
   "Brightness ISO - %",
   "Opacity - %",
   "Moisture Content - %",
   "Stretch/Elongation - %",
   "Wet Tensile - gf/50mm",
   "Wet/Dry Tensile Ratio - %"]

/-- Loop body of `add_metrics_monitored_slide`: text `f"• {metric}"`,
level 1, 16pt. -/
def metrics_render (metric : String) : Paragraph :=
  { text := "• " ++ metric, level := 1, size := some 16 }

/-- `add_metrics_monitored_slide`: bolded seed followed by the rendered
metric entries. -/
def add_metrics_monitored_slide (prs : Prs) : Prs :=
  addSlide prs
    { layout := 1
      title := "Quality Metrics Monitored"
      body := { text := "Core Quality Parameters", bold := some true }
        :: metrics_list.map metrics_render }

/-- The `params` list of `add_machine_parameters_slide`. -/
def machine_params : List String :=
  ["Machine Speed (Mpm)",
   "Pope Reel Speed (Mpm)",
   "MC Draw",
   "Press Load",
   "Coating Parameters",
   "Machine Creep %"]

/-- The `fiber_params` list of `add_machine_parameters_slide`. -/
def machine_fiber_params : List String :=
  ["Short Fiber %",
   "Long Fiber %",
   "Broke %",
   "HW/SW Consistency",
   "HW SR / SW OSR",
   "WSR/DSR (Kg/Hr)"]

/-- Loop body of both loops in `add_machine_parameters_slide`: text
`f"• {param}"`, level 1, no font size set. -/
def machine_render (param : String) : Paragraph :=
  { text := "• " ++ param, level := 1 }

/-- `add_machine_parameters_slide`: bolded seed, the machine-parameter
loop, a manual bold header, then the fiber-parameter loop. -/
def add_machine_parameters_slide (prs : Prs) : Prs :=
  addSlide prs
    { layout := 1
      title := "Machine Parameters & Fiber Composition"
      body := { text := "Machine Parameters", bold := some true }
        :: (machine_params.map machine_render
            ++ [boldHeader "\nFiber Composition & Consumption"]
            ++ machine_fiber_params.map machine_render) }

/-- The `features` list of `add_trend_analysis_slide`. -/
def trend_features : List String :=
  ["Multiple time views: Hourly, Daily, Weekly, Monthly",
   "Multi-metric selection (up to 4 parameters)",
   "Statistical indicators:",
   "  - Moving averages (customizable period)",
   "  - Control limits (3-sigma)",
   "  - Min/Max/Mean/Median statistics",
   "Interactive charts with zoom and pan",
   "Chart export functionality",
   "CSV data export",
   "Filter selections shown in exports"]

/-- Loop body of `add_trend_analysis_slide`:
`p.level = 1 if not feature.startswith("  ") else 2`, 16pt. -/
def trend_render (feature : String) : Paragraph :=
  { text := feature
    level := if !(pyStartsWith feature "  ") then 1 else 2
    size := some 16 }

/-- `add_trend_analysis_slide`: bolded seed followed by the rendered
features. -/
def add_trend_analysis_slide (prs : Prs) : Prs :=
  addSlide prs
    { layout := 1
      title := "Trend Analysis Features"
      body := { text := "Advanced Trending Capabilities", bold := some true }
        :: trend_features.map trend_render }

/-- The `tabs` list of `add_advanced_analytics_slide`. -/
def advanced_tabs : List String :=
  ["\n1. Process Performance",
   "  • Process Capability Index (Cpk) analysis",
   "  • Multi-parameter performance radar",
   "  • Quality score trending",
   "  • Daily averaging for stability",
   "\n2. Statistical Analysis",
   "  • Process stability monitoring",
   "  • Distribution analysis",
   "  • Coefficient of variation",
   "  • Control charts",
   "\n3. Correlations & Patterns",
   "  • Parameter correlation matrix",
   "  • Top quality issues distribution",
   "  • Pattern recognition",
   "\n4. Shift Performance",
   "  • Comparative shift analysis",
   "  • Performance benchmarking",
   "  • Production volume tracking"]

/-- Loop body of `add_advanced_analytics_slide`:
`p.level = 0 if item.startswith("\n") else 1`, 16pt, bold only set when
the item starts with a newline. -/
def advanced_render (item : String) : Paragraph :=
  { text := item
    level := if pyStartsWith item "\n" then 0 else 1
    size := some 16
    bold := if pyStartsWith item "\n" then some true else none }

/-- `add_advanced_analytics_slide`: bolded seed followed by the rendered
tab items. -/
def add_advanced_analytics_slide (prs : Prs) : Prs :=
  addSlide prs
    { layout := 1
      title := "Advanced Analytics Dashboard"
      body := { text := "Four Comprehensive Analysis Tabs", bold := some true }
        :: advanced_tabs.map advanced_render }

/-- The `insights` list of `add_insights_slide1`. -/
def insights1_list : List String :=
  ["Real-time identification of out-of-spec parameters",
   "Early warning system for process deviations",
   "Cpk > 1.33 indicates excellent process capability",
   "Daily averaging reduces noise in measurements",
   "\nOperational Efficiency",
   "Shift performance comparison identifies best practices",
   "Machine parameter tracking optimizes settings",
   "Correlation analysis reveals parameter relationships",
   "\nData-Driven Decision Making",
   "Historical trend analysis for predictive insights",
   "Statistical control limits for process stability",
   "Comprehensive reporting for management review"]

/-- Loop body of `add_insights_slide1`: same newline-header rule at
16pt. -/
def insights1_render (insight : String) : Paragraph :=
  { text := insight
    level := if pyStartsWith insight "\n" then 0 else 1
    size := some 16
    bold := if pyStartsWith insight "\n" then some true else none }

/-- `add_insights_slide1`: bolded seed followed by the rendered
insights. -/
def add_insights_slide1 (prs : Prs) : Prs :=
  addSlide prs
    { layout := 1
      title := "Key Insights & Benefits"
      body := { text := "Quality Control Excellence", bold := some true }
        :: insights1_list.map insights1_render }

/-- The `insights` list of `add_insights_slide2`. -/
def insights2_list : List String :=
  ["Moisture content (exclude 0 values for accuracy)",
   "MD/CD ratio for sheet strength balance",
   "Wet/Dry tensile ratio for absorbency",
   "Process stability through control charts",
   "\nQuality Improvement Opportunities",
   "Parameters frequently out of spec",
   "Shift-to-shift variations",
   "Correlation between defects and parameters",
   "Machine speed vs quality trade-offs",
   "\nCost Optimization",
   "Fiber composition optimization",
   "Energy consumption (WSR/DSR rates)",
   "Broke percentage reduction",
   "Machine efficiency improvements"]

/-- Loop body of `add_insights_slide2`: same newline-header rule at
16pt. -/
def insights2_render (insight : String) : Paragraph :=
  { text := insight
    level := if pyStartsWith insight "\n" then 0 else 1
    size := some 16
    bold := if pyStartsWith insight "\n" then some true else none }

/-- `add_insights_slide2`: bolded seed followed by the rendered
insights. -/
def add_insights_slide2 (prs : Prs) : Prs :=
  addSlide prs
    { layout := 1
      title := "Process Optimization Insights"
      body := { text := "Critical Parameters to Monitor", bold := some true }
        :: insights2_list.map insights2_render }

/-- The `features` list of `add_technical_features_slide`. -/
def technical_list : List String :=
  ["React 19 with TypeScript",
   "Material-UI v7 for modern UI",
   "Recharts for interactive visualizations",
   "Day.js for date handling",
   "XLSX for Excel file parsing",
   "jsPDF for report generation",
   "\nData Processing Features",
   "Automatic column mapping",
   "Intelligent date parsing",
   "Data validation and error handling",
   "Daily averaging algorithms",
   "Statistical calculations",
   "\nUser Experience",
   "Responsive design for all devices",
   "Intuitive navigation",
   "Real-time filtering",
   "Export capabilities",
   "Performance optimized"]

/-- Loop body of `add_technical_features_slide`: same newline-header
rule at 16pt. -/
def technical_render (feature : String) : Paragraph :=
  { text := feature
    level := if pyStartsWith feature "\n" then 0 else 1
    size := some 16
    bold := if pyStartsWith feature "\n" then some true else none }

/-- `add_technical_features_slide`: bolded seed followed by the rendered
features. -/
def add_technical_features_slide (prs : Prs) : Prs :=
  addSlide prs
    { layout := 1
      title := "Technical Implementation"
      body := { text := "Modern Technology Stack", bold := some true }
        :: technical_list.map technical_render }

/-- The `enhancements` list of `add_future_enhancements_slide`. -/
def future_list : List String :=
  ["Machine Learning Integration",
   "  • Predictive quality alerts",
   "  • Anomaly detection",
   "  • Optimal parameter recommendations",
   "\nReal-time Data Integration",
   "  • Direct sensor connectivity",
   "  • Live dashboard updates",
   "  • Instant notifications",
   "\nAdvanced Analytics",
   "  • Six Sigma calculations",
   "  • Root cause analysis",
   "  • Predictive maintenance",
   "\nIntegration Capabilities",
   "  • ERP system integration",
   "  • Mobile app development",
   "  • API for third-party access"]

/-- Loop body of `add_future_enhancements_slide`:
`p.level = 0 if not item.startswith("  ") else 1`, 16pt, and bold is set
when the item does not start with two spaces and is not the literal
`"Potential Additions"`. -/
def future_render (item : String) : Paragraph :=
  { text := item
    level := if !(pyStartsWith item "  ") then 0 else 1
    size := some 16
    bold := if !(pyStartsWith item "  ") && !(item == "Potential Additions")
            then some true else none }

/-- `add_future_enhancements_slide`: bolded seed followed by the
rendered enhancement items. -/
def add_future_enhancements_slide (prs : Prs) : Prs :=
  addSlide prs
    { layout := 1
      title := "Future Enhancement Opportunities"
      body := { text := "Potential Additions", bold := some true }
        :: future_list.map future_render }

/-- The `points` list of `add_conclusion_slide`. -/
def conclusion_points : List String :=
  ["\nKey Benefits:",
   "• Improved quality control and consistency",
   "• Data-driven decision making",
   "• Reduced waste and defects",
   "• Enhanced operational efficiency",
   "• Better compliance and reporting",
   "\nBusiness Impact:",
   "• Faster identification of quality issues",
   "• Improved customer satisfaction",
   "• Cost reduction through optimization",
   "• Competitive advantage through analytics",
   "\nReady for deployment and continuous improvement"]

/-- Loop body of `add_conclusion_slide`: same newline-header rule, at
18pt. -/
def conclusion_render (point : String) : Paragraph :=
  { text := point
    level := if pyStartsWith point "\n" then 0 else 1
    size := some 18
    bold := if pyStartsWith point "\n" then some true else none }

/-- `add_conclusion_slide`: seed paragraph set bold at 20pt, followed by
the rendered points. -/
def add_conclusion_slide (prs : Prs) : Prs :=
  addSlide prs
    { layout := 1
      title := "Conclusion"
      body := { text := "Comprehensive Quality Management Solution",
                bold := some true, size := some 20 }
        :: conclusion_points.map conclusion_render }

/-- `Presentation()`: the python-pptx default template document
(10 × 7.5 inch page, no slides). -/
def prs_new : Prs := { slideWidth := 10, slideHeight := 15/2, slides := [] }

/-- The document right after `prs.slide_width = Inches(13.333)` and
`prs.slide_height = Inches(7.5)`, before any slide is added. -/
def sized_prs : Prs :=
  { prs_new with slideWidth := 13333/1000, slideHeight := 15/2 }

/-- The in-memory document built by `create_presentation` after the
twelve builder calls, in their source order. -/
def create_presentation_prs : Prs :=
  add_conclusion_slide
    (add_future_enhancements_slide
      (add_technical_features_slide
        (add_insights_slide2
          (add_insights_slide1
            (add_advanced_analytics_slide
              (add_trend_analysis_slide
                (add_machine_parameters_slide
                  (add_metrics_monitored_slide
                    (add_key_features_slide
                      (add_overview_slide
                        (add_title_slide sized_prs)))))))))))

/-- The literal `filename` of `create_presentation`. -/
def output_filename : String := "Tissue_QA_Dashboard_Presentation.pptx"

/-- One effectful statement in the tail of `create_presentation`. -/
inductive Step where
  | save (path : String)
  | printLine (msg : String)
  | ret (value : String)
deriving DecidableEq

/-- The tail of `create_presentation` after the builders:
`prs.save(filename)`, the print of `f"Presentation saved as {filename}"`,
then `return filename`. -/
def tail_program : List Step :=
  [Step.save output_filename,
   Step.printLine ("Presentation saved as " ++ output_filename),
   Step.ret output_filename]

/-- Observable outcome of a run: lines printed to stdout, paths written
to disk, and the value returned to the caller. -/
structure ExecState where
  printed : List String
  saved : List String
  returned : Option String
deriving DecidableEq

/-- Python statement-sequence semantics for the tail program: statements
run in order; a failing `save` raises, and since the source has no
`try`/`except`, the exception is recorded and nothing after it runs.
The second component is the propagated exception, if any. -/
def runSteps (saveOk : Bool) : List Step → ExecState → ExecState × Option String
  | [], st => (st, none)
  | Step.save p :: rest, st =>
      if saveOk then runSteps saveOk rest { st with saved := st.saved ++ [p] }
      else (st, some ("OSError: could not save " ++ p))
  | Step.printLine m :: rest, st =>
      runSteps saveOk rest { st with printed := st.printed ++ [m] }
  | Step.ret v :: _, st => ({ st with returned := some v }, none)

/-- Run of `create_presentation`'s save/print/return tail from a clean
observable state; `saveOk` says whether the underlying file write
succeeds. -/
def create_presentation_run (saveOk : Bool) : ExecState × Option String :=
  runSteps saveOk tail_program { printed := [], saved := [], returned := none }

/-- Ambient process environment a script could read: environment
variables, working directory, and any external input data. -/
structure Env where
  envVars : List (String × String)
  cwd : String
  externalData : List String

/-- `create_presentation` as a function of the ambient environment.
The source reads no environment variable, file, argument, clock or
randomness — every piece of content is a string literal — so the
construction ignores its environment. -/
def create_presentation_of (_env : Env) : Prs := create_presentation_prs

/-- The (content line, resulting paragraph) pairs a builder's loop adds
after the seed paragraph.  The title slide has no body lines. -/
def title_pairs : List (String × Paragraph) := []

/-- Line/paragraph pairs of `add_overview_slide`. -/
def overview_pairs : List (String × Paragraph) :=
  overview_points.map (fun point => (point, overview_render point))

/-- Line/paragraph pairs of `add_key_features_slide`: here each content
line is the paragraph's own literal text. -/
def key_features_pairs : List (String × Paragraph) :=
  key_features_body.map (fun p => (p.text, p))

/-- Line/paragraph pairs of `add_metrics_monitored_slide`. -/
def metrics_pairs : List (String × Paragraph) :=
  metrics_list.map (fun m => (m, metrics_render m))

/-- Line/paragraph pairs of `add_machine_parameters_slide`, including
the manually added fiber-composition header between the two loops. -/
def machine_pairs : List (String × Paragraph) :=
  machine_params.map (fun p => (p, machine_render p))
    ++ [("\nFiber Composition & Consumption",
         boldHeader "\nFiber Composition & Consumption")]
    ++ machine_fiber_params.map (fun p => (p, machine_render p))

/-- Line/paragraph pairs of `add_trend_analysis_slide`. -/
def trend_pairs : List (String × Paragraph) :=
  trend_features.map (fun f => (f, trend_render f))

/-- Line/paragraph pairs of `add_advanced_analytics_slide`. -/
def advanced_pairs : List (String × Paragraph) :=
  advanced_tabs.map (fun i => (i, advanced_render i))

/-- Line/paragraph pairs of `add_insights_slide1`. -/
def insights1_pairs : List (String × Paragraph) :=
  insights1_list.map (fun i => (i, insights1_render i))

/-- Line/paragraph pairs of `add_insights_slide2`. -/
def insights2_pairs : List (String × Paragraph) :=
  insights2_list.map (fun i => (i, insights2_render i))

/-- Line/paragraph pairs of `add_technical_features_slide`. -/
def technical_pairs : List (String × Paragraph) :=
  technical_list.map (fun f => (f, technical_render f))

/-- Line/paragraph pairs of `add_future_enhancements_slide`. -/
def future_pairs : List (String × Paragraph) :=
  future_list.map (fun i => (i, future_render i))

/-- Line/paragraph pairs of `add_conclusion_slide`. -/
def conclusion_pairs : List (String × Paragraph) :=
  conclusion_points.map (fun p => (p, conclusion_render p))

/-- All twelve builders' line/paragraph pairs, each with that builder's
default body level: the indentation level its code assigns to a line
carrying neither the newline marker nor the two-space marker (the
`else` branch of its level assignment; 1 everywhere except
`add_future_enhancements_slide`, whose unmarked lines get level 0). -/
def all_builder_pairs : List (List (String × Paragraph) × Nat) :=
  [(title_pairs, 1), (overview_pairs, 1), (key_features_pairs, 1),
   (metrics_pairs, 1), (machine_pairs, 1), (trend_pairs, 1),
   (advanced_pairs, 1), (insights1_pairs, 1), (insights2_pairs, 1),
   (technical_pairs, 1), (future_pairs, 0), (conclusion_pairs, 1)]

/-- The uniform formatting rule claimed for every builder: a line
starting with a newline gives a bold level-0 paragraph; a line starting
with two spaces gives an unbolded level-2 paragraph; any other line
gives an unbolded level-1 paragraph with an explicit font size of
16–18pt. -/
def uniform_rule (line : String) (p : Paragraph) : Bool :=
  if pyStartsWith line "\n" then
    p.bold == some true && p.level == 0
  else if pyStartsWith line "  " then
    p.level == 2 && !(p.bold == some true)
  else
    p.level == 1 && !(p.bold == some true) &&
      (match p.size with
       | some n => decide (16 ≤ n ∧ n ≤ 18)
       | none => false)

/-- Whether every line of every builder satisfies `uniform_rule`. -/
def uniform_rule_everywhere : Bool :=
  all_builder_pairs.all (fun bd => bd.1.all (fun pr => uniform_rule pr.1 pr.2))

/-- Whether every two-space line of every builder renders exactly one
level deeper than that builder's default body level. -/
def sub_bullet_one_deeper : Bool :=
  all_builder_pairs.all (fun bd =>
    bd.1.all (fun pr => !(pyStartsWith pr.1 "  ") || (pr.2.level == bd.2 + 1)))

/-- The builder pair lists other than `add_advanced_analytics_slide`'s,
with their default body levels. -/
def non_advanced_builder_pairs : List (List (String × Paragraph) × Nat) :=
  [(title_pairs, 1), (overview_pairs, 1), (key_features_pairs, 1),
   (metrics_pairs, 1), (machine_pairs, 1), (trend_pairs, 1),
   (insights1_pairs, 1), (insights2_pairs, 1),
   (technical_pairs, 1), (future_pairs, 0), (conclusion_pairs, 1)]

/-- C1: the generated document contains exactly twelve slides, in the
fixed deterministic order of the call sequence, with the specified
titles; in particular slide 1 is "Tissue Manufacturing QA Dashboard"
and slide 4 is "Quality Metrics Monitored". -/
theorem C1_twelve_slides_fixed_titles :
    create_presentation_prs.slides.length = 12 ∧
    create_presentation_prs.slides.map Slide.title =
      ["Tissue Manufacturing QA Dashboard", "Dashboard Overview", "Key Features",
       "Quality Metrics Monitored", "Machine Parameters & Fiber Composition",
       "Trend Analysis Features", "Advanced Analytics Dashboard",
       "Key Insights & Benefits", "Process Optimization Insights",
       "Technical Implementation", "Future Enhancement Opportunities",
       "Conclusion"] ∧
    (create_presentation_prs.slides.get? 0).map Slide.title =
      some "Tissue Manufacturing QA Dashboard" ∧
    (create_presentation_prs.slides.get? 3).map Slide.title =
      some "Quality Metrics Monitored" := by
  refine ⟨by decide, by decide, by decide, by decide⟩

/-- C2: the builder writes the document to the fixed relative path
`Tissue_QA_Dashboard_Presentation.pptx`, returns that path, and on a
successful save prints exactly one confirmation line, which contains
the output filename. -/
theorem C2_output_contract :
    output_filename = "Tissue_QA_Dashboard_Presentation.pptx" ∧
    create_presentation_run true =
      ({ printed := ["Presentation saved as Tissue_QA_Dashboard_Presentation.pptx"],
         saved := ["Tissue_QA_Dashboard_Presentation.pptx"],
         returned := some "Tissue_QA_Dashboard_Presentation.pptx" }, none) ∧
    (∃ before after,
      "Presentation saved as Tissue_QA_Dashboard_Presentation.pptx" =
        before ++ output_filename ++ after) := by
  refine ⟨rfl, by decide, "Presentation saved as ", "", by decide⟩

/-- C3 counterexample: the claimed uniform formatting rule fails; the
explicit line `"  • Process Capability Index (Cpk) analysis"` of
`add_advanced_analytics_slide` starts with two spaces but is rendered
at level 1 (the claimed rule demands level 2), so the rule does not
hold across all twelve builders. -/
theorem C3_counterexample :
    ("  • Process Capability Index (Cpk) analysis",
      advanced_render "  • Process Capability Index (Cpk) analysis") ∈ advanced_pairs ∧
    pyStartsWith "  • Process Capability Index (Cpk) analysis" "  " = true ∧
    (advanced_render "  • Process Capability Index (Cpk) analysis").level = 1 ∧
    uniform_rule "  • Process Capability Index (Cpk) analysis"
      (advanced_render "  • Process Capability Index (Cpk) analysis") = false ∧
    uniform_rule_everywhere = false := by
  refine ⟨by decide, by decide, by decide, by decide, by decide⟩

/-- C3 amended: every builder renders a newline-marked line as a bold
level-0 paragraph; two-space lines are rendered unbolded at level 2 by
`add_trend_analysis_slide` but only at level 1 by
`add_advanced_analytics_slide` and `add_future_enhancements_slide`;
every remaining line is rendered unbolded at level 1 except in
`add_future_enhancements_slide`, where it is rendered bold at level 0;
`add_key_features_slide` and `add_machine_parameters_slide` set no
explicit font size, while the other builders set every looped
paragraph's size to 16–18pt. -/
theorem C3_amended :
    all_builder_pairs.all (fun bd => bd.1.all (fun pr =>
      !(pyStartsWith pr.1 "\n") ||
        (pr.2.bold == some true && pr.2.level == 0))) = true ∧
    trend_pairs.all (fun pr =>
      !(pyStartsWith pr.1 "  ") ||
        (pr.2.level == 2 && pr.2.bold == none)) = true ∧
    (advanced_pairs ++ future_pairs).all (fun pr =>
      !(pyStartsWith pr.1 "  ") ||
        (pr.2.level == 1 && pr.2.bold == none)) = true ∧
    (title_pairs ++ overview_pairs ++ key_features_pairs ++ metrics_pairs
        ++ machine_pairs ++ trend_pairs ++ advanced_pairs ++ insights1_pairs
        ++ insights2_pairs ++ technical_pairs ++ conclusion_pairs).all (fun pr =>
      pyStartsWith pr.1 "\n" || pyStartsWith pr.1 "  " ||
        (pr.2.level == 1 && pr.2.bold == none)) = true ∧
    future_pairs.all (fun pr =>
      pyStartsWith pr.1 "\n" || pyStartsWith pr.1 "  " ||
        (pr.2.level == 0 && pr.2.bold == some true)) = true ∧
    (key_features_pairs ++ machine_pairs).all (fun pr =>
      pr.2.size == none) = true ∧
    (overview_pairs ++ metrics_pairs ++ trend_pairs ++ advanced_pairs
        ++ insights1_pairs ++ insights2_pairs ++ technical_pairs
        ++ future_pairs ++ conclusion_pairs).all (fun pr =>
      match pr.2.size with
      | some n => decide (16 ≤ n ∧ n ≤ 18)
      | none => false) = true := by
  refine ⟨by decide, by decide, by decide, by decide, by decide, by decide, by decide⟩

/-- C4: every slide of the generated document has a non-empty title. -/
theorem C4_nonempty_titles :
    create_presentation_prs.slides.all (fun s => !(s.title == "")) = true := by
  decide

/-- C5: the "Quality Metrics Monitored" slide (slide 4) has exactly 12
body paragraphs — its header paragraph plus the 11 literal metric
entries — and every metric paragraph is rendered at 16pt at level 1. -/
theorem C5_metrics_slide_body :
    (create_presentation_prs.slides.get? 3).map Slide.title =
      some "Quality Metrics Monitored" ∧
    (create_presentation_prs.slides.get? 3).map (fun s => s.body.length) =
      some 12 ∧
    metrics_list.length = 11 ∧
    metrics_list.all (fun m =>
      (metrics_render m).size == some 16 && (metrics_render m).level == 1) = true := by
  refine ⟨by decide, by decide, by decide, by decide⟩

/-- C6: the page size is set to 13.333 × 7.5 inches before any slide is
added (the resized document still has an empty slide list), no builder
changes either dimension, and the finished document has exactly those
dimensions. -/
theorem C6_page_dimensions :
    sized_prs.slides = [] ∧
    sized_prs.slideWidth = 13333/1000 ∧ sized_prs.slideHeight = 15/2 ∧
    (13333/1000 : ℚ) = 13.333 ∧ ((15/2 : ℚ) = 7.5) ∧
    (∀ prs : Prs, (add_title_slide prs).slideWidth = prs.slideWidth ∧
      (add_title_slide prs).slideHeight = prs.slideHeight) ∧
    (∀ prs : Prs, (add_overview_slide prs).slideWidth = prs.slideWidth ∧
      (add_overview_slide prs).slideHeight = prs.slideHeight) ∧
    (∀ prs : Prs, (add_key_features_slide prs).slideWidth = prs.slideWidth ∧
      (add_key_features_slide prs).slideHeight = prs.slideHeight) ∧
    (∀ prs : Prs, (add_metrics_monitored_slide prs).slideWidth = prs.slideWidth ∧
      (add_metrics_monitored_slide prs).slideHeight = prs.slideHeight) ∧
    (∀ prs : Prs, (add_machine_parameters_slide prs).slideWidth = prs.slideWidth ∧
      (add_machine_parameters_slide prs).slideHeight = prs.slideHeight) ∧
    (∀ prs : Prs, (add_trend_analysis_slide prs).slideWidth = prs.slideWidth ∧
      (add_trend_analysis_slide prs).slideHeight = prs.slideHeight) ∧
    (∀ prs : Prs, (add_advanced_analytics_slide prs).slideWidth = prs.slideWidth ∧
      (add_advanced_analytics_slide prs).slideHeight = prs.slideHeight) ∧
    (∀ prs : Prs, (add_insights_slide1 prs).slideWidth = prs.slideWidth ∧
      (add_insights_slide1 prs).slideHeight = prs.slideHeight) ∧
    (∀ prs : Prs, (add_insights_slide2 prs).slideWidth = prs.slideWidth ∧
      (add_insights_slide2 prs).slideHeight = prs.slideHeight) ∧
    (∀ prs : Prs, (add_technical_features_slide prs).slideWidth = prs.slideWidth ∧
      (add_technical_features_slide prs).slideHeight = prs.slideHeight) ∧
    (∀ prs : Prs, (add_future_enhancements_slide prs).slideWidth = prs.slideWidth ∧
      (add_future_enhancements_slide prs).slideHeight = prs.slideHeight) ∧
    (∀ prs : Prs, (add_conclusion_slide prs).slideWidth = prs.slideWidth ∧
      (add_conclusion_slide prs).slideHeight = prs.slideHeight) ∧
    create_presentation_prs.slideWidth = 13333/1000 ∧
    create_presentation_prs.slideHeight = 15/2 := by
  refine ⟨rfl, rfl, rfl, by norm_num, by norm_num,
    fun _ => ⟨rfl, rfl⟩, fun _ => ⟨rfl, rfl⟩, fun _ => ⟨rfl, rfl⟩,
    fun _ => ⟨rfl, rfl⟩, fun _ => ⟨rfl, rfl⟩, fun _ => ⟨rfl, rfl⟩,
    fun _ => ⟨rfl, rfl⟩, fun _ => ⟨rfl, rfl⟩, fun _ => ⟨rfl, rfl⟩,
    fun _ => ⟨rfl, rfl⟩, fun _ => ⟨rfl, rfl⟩, fun _ => ⟨rfl, rfl⟩,
    rfl, rfl⟩

/-- C7 counterexample: the claim that every two-space line renders one
level deeper than its slide's default body level fails on
`add_advanced_analytics_slide`: its default body level is 1, yet the
two-space line `"  • Process Capability Index (Cpk) analysis"` is
rendered at level 1, not 2. -/
theorem C7_counterexample :
    (advanced_pairs, 1) ∈ all_builder_pairs ∧
    ("  • Process Capability Index (Cpk) analysis",
      advanced_render "  • Process Capability Index (Cpk) analysis") ∈ advanced_pairs ∧
    pyStartsWith "  • Process Capability Index (Cpk) analysis" "  " = true ∧
    (advanced_render "  • Process Capability Index (Cpk) analysis").level = 1 ∧
    sub_bullet_one_deeper = false := by
  refine ⟨by decide, by decide, by decide, by decide, by decide⟩

/-- C7 amended: in every builder except `add_advanced_analytics_slide`,
a two-space line renders exactly one level deeper than the builder's
default body level; in `add_advanced_analytics_slide`, two-space lines
render at the default body level 1 itself. -/
theorem C7_amended :
    non_advanced_builder_pairs.all (fun bd =>
      bd.1.all (fun pr =>
        !(pyStartsWith pr.1 "  ") || (pr.2.level == bd.2 + 1))) = true ∧
    advanced_pairs.all (fun pr =>
      !(pyStartsWith pr.1 "  ") || (pr.2.level == 1)) = true := by
  refine ⟨by decide, by decide⟩

/-- C8: the save / print / return tail has no error handling: when the
underlying save fails, the error propagates (recorded as an uncaught
exception), nothing is printed and no path is returned; the
confirmation line is printed only in the successful run. -/
theorem C8_save_failure_propagates :
    create_presentation_run false =
      ({ printed := [], saved := [], returned := none },
       some "OSError: could not save Tissue_QA_Dashboard_Presentation.pptx") ∧
    create_presentation_run true =
      ({ printed := ["Presentation saved as Tissue_QA_Dashboard_Presentation.pptx"],
         saved := ["Tissue_QA_Dashboard_Presentation.pptx"],
         returned := some "Tissue_QA_Dashboard_Presentation.pptx" }, none) := by
  refine ⟨by decide, by decide⟩

/-- C9: the construction is deterministic in content — it reads nothing
from the ambient environment, so any two runs build the same in-memory
document model. -/
theorem C9_deterministic_content :
    ∀ e₁ e₂ : Env,
      create_presentation_of e₁ = create_presentation_of e₂ ∧
      create_presentation_of e₁ = create_presentation_prs :=
  fun _ _ => ⟨rfl, rfl⟩

/-- C10: no element of the enhancements list equals the literal
`"Potential Additions"`, so the special case in
`add_future_enhancements_slide` never fires and every paragraph built
from a line not starting with two spaces has its bold flag set. -/
theorem C10_potential_additions_never_matches :
    future_list.all (fun item => !(item == "Potential Additions")) = true ∧
    future_list.all (fun item =>
      pyStartsWith item "  " || ((future_render item).bold == some true)) = true := by
  refine ⟨by decide, by decide⟩
